import Mathlib

/-!
# TrustRoll: shallow embedding and verification

A shallow embedding of the `TrustRoll` Solidity contract (encrypted lottery
over the FHEVM library) and proofs of the specified properties.

Ciphertext handles are modelled as pairs of a globally unique identifier and
the (ghost) plaintext value they encrypt; since ciphertexts are immutable once
created, carrying the plaintext inside the handle is observationally equivalent
to an external handle-to-payload store.  The homomorphic operation engine
(`FHE.add`, `FHE.sub`, `FHE.rem`, `FHE.eq`, `FHE.select`, `FHE.asEuintN`,
`FHE.randEuint8`, `FHE.fromExternal`, `FHE.allowThis`, `FHE.allow`) is embedded
with the semantics of the library as documented in the specification:
fixed-width modular arithmetic with silent wraparound, encrypted equality and
data-oblivious select, proof-gated admission of external ciphertexts scoped to
(contract, submitter), append-only access grants, and a randomness source
modelled as an ambient stream of bytes consumed one index at a time.

Every primitive appends an `Event` to a ghost trace so that the ordering of
admission, homomorphic computation, grants, and stores within an operation is
itself a provable property.  Reverting operations return `Except.error`; the
`exec*` wrappers realise the all-or-nothing transaction semantics by keeping
the pre-state on error.
-/

namespace TrustRoll

/-- A principal: the contract itself, or an external account (address). -/
inductive Principal where
  | contractP : Principal
  | player : Nat → Principal
deriving DecidableEq, Repr

/-- A ciphertext handle: a globally unique identifier together with the
(ghost) plaintext value of the immutable ciphertext it references. -/
structure H where
  id : Nat
  val : Nat
deriving DecidableEq, Repr

/-- Ghost trace events recording what each engine primitive did:
creation of a handle by computation or by lifting a literal, admission of an
external ciphertext, an access grant, and a write to durable contract state. -/
inductive Event where
  | compute : Nat → Event
  | external : Nat → Event
  | grant : Nat → Principal → Event
  | store : Event
deriving DecidableEq, Repr

/-- `struct Ticket { euint8 firstNumber; euint8 secondNumber; bool exists; }` -/
structure Ticket where
  firstNumber : H
  secondNumber : H
  exists_ : Bool
deriving DecidableEq, Repr

/-- `struct DrawResult { euint8 firstWinning; euint8 secondWinning; euint32 reward; }` -/
structure DrawResult where
  firstWinning : H
  secondWinning : H
  reward : H
deriving DecidableEq, Repr

/-- The durable state of the chain and contract: the handle counter, the
append-only access-grant ledger, the three per-address mappings of the
contract, the randomness stream and its cursor, the contract's ETH balance,
and the ghost event trace. -/
structure ChainState where
  next : Nat
  grants : List (Nat × Principal)
  balances : Nat → H
  tickets : Nat → Ticket
  lastResults : Nat → DrawResult
  rng : Nat → Nat
  rngIndex : Nat
  contractEth : Nat
  trace : List Event

/-- Errors of the contract's state-mutating operations, named as in the
specification's taxonomy (§7).  `ZeroPayment` is the revert "No ETH sent",
`BelowMinimum` is "Insufficient ETH for points", `NoActiveTicket` is
"Ticket missing", `InvalidProof` is a failed input-proof verification. -/
inductive TrustErr where
  | ZeroPayment : TrustErr
  | BelowMinimum : TrustErr
  | NoActiveTicket : TrustErr
  | InvalidProof : TrustErr
deriving DecidableEq, Repr

/-- The uninitialised-mapping sentinel: handle 0, which decrypts to 0. -/
def zeroHandle : H := ⟨0, 0⟩

/-- 2^32, the modulus of the `euint32` domain. -/
def M32 : Nat := 2 ^ 32

/-- 2^8, the modulus of the `euint8` domain. -/
def M8 : Nat := 2 ^ 8

/-- `uint32 public constant POINTS_PER_ETH = 10000;` -/
def POINTS_PER_ETH : Nat := 10000

/-- `uint32 public constant TICKET_COST = 10;` -/
def TICKET_COST : Nat := 10

/-- `uint32 public constant ONE_MATCH_REWARD = 100;` -/
def ONE_MATCH_REWARD : Nat := 100

/-- `uint32 public constant TWO_MATCH_REWARD = 1000;` -/
def TWO_MATCH_REWARD : Nat := 1000

/-- `1 ether` in wei. -/
def ETHER : Nat := 10 ^ 18

/-- The identity of the deployed contract, used as the scope that input
proofs must be bound to. -/
def CONTRACT_ID : Nat := 0

/-- Create a fresh handle holding value `v`, logging a `compute` event.
Handle identifiers come from the monotone counter, so every creation is
globally unique. -/
def createHandle (s : ChainState) (v : Nat) : H × ChainState :=
  (⟨s.next, v⟩,
   { s with next := s.next + 1, trace := s.trace ++ [Event.compute s.next] })

/-- Create a fresh handle for an externally admitted ciphertext of value `v`,
logging an `external` (admission) event. -/
def externalHandle (s : ChainState) (v : Nat) : H × ChainState :=
  (⟨s.next, v⟩,
   { s with next := s.next + 1, trace := s.trace ++ [Event.external s.next] })

/-- `FHE.asEuint32(v)`: lift a plaintext constant into the 32-bit encrypted
domain (composed with Solidity's `uint32(...)` truncating cast). -/
def fheAsEuint32 (s : ChainState) (v : Nat) : H × ChainState :=
  createHandle s (v % M32)

/-- `FHE.asEuint8(v)`: lift a plaintext constant into the 8-bit encrypted
domain. -/
def fheAsEuint8 (s : ChainState) (v : Nat) : H × ChainState :=
  createHandle s (v % M8)

/-- `FHE.add` on `euint32`: modular 32-bit addition, overflow wraps. -/
def fheAdd32 (s : ChainState) (a b : H) : H × ChainState :=
  createHandle s ((a.val + b.val) % M32)

/-- `FHE.sub` on `euint32`: modular 32-bit subtraction, underflow wraps. -/
def fheSub32 (s : ChainState) (a b : H) : H × ChainState :=
  createHandle s ((a.val % M32 + M32 - b.val % M32) % M32)

/-- `FHE.add` on `euint8`: modular 8-bit addition. -/
def fheAdd8 (s : ChainState) (a b : H) : H × ChainState :=
  createHandle s ((a.val + b.val) % M8)

/-- `FHE.rem(a, k)`: remainder of an `euint8` by a plaintext literal. -/
def fheRem8 (s : ChainState) (a : H) (k : Nat) : H × ChainState :=
  createHandle s (a.val % k)

/-- `FHE.eq`: encrypted equality; the result is an encrypted boolean handle
holding 1 or 0, not a plaintext boolean. -/
def fheEq (s : ChainState) (a b : H) : H × ChainState :=
  createHandle s (if a.val = b.val then 1 else 0)

/-- `FHE.select(cond, ifTrue, ifFalse)`: data-oblivious encrypted ternary;
both branches are already evaluated, the unchosen value is discarded
homomorphically. -/
def fheSelect (s : ChainState) (c t f : H) : H × ChainState :=
  createHandle s (if c.val = 0 then f.val else t.val)

/-- `FHE.randEuint8()`: draw one fresh encrypted random byte from the ambient
randomness stream, advancing the cursor so the next call is an independent
draw. -/
def fheRandEuint8 (s : ChainState) : H × ChainState :=
  let v := s.rng s.rngIndex % M8
  let (h, s1) := createHandle s v
  (h, { s1 with rngIndex := s.rngIndex + 1 })

/-- `FHE.allowThis(h)`: append a decryption grant of `h` to the contract
itself.  Grants are append-only; there is no revocation. -/
def fheAllowThis (s : ChainState) (h : H) : ChainState :=
  { s with grants := s.grants ++ [(h.id, Principal.contractP)],
           trace := s.trace ++ [Event.grant h.id Principal.contractP] }

/-- `FHE.allow(h, addr)`: append a decryption grant of `h` to an external
principal. -/
def fheAllow (s : ChainState) (h : H) (a : Nat) : ChainState :=
  { s with grants := s.grants ++ [(h.id, Principal.player a)],
           trace := s.trace ++ [Event.grant h.id (Principal.player a)] }

/-- An input proof accompanying externally supplied ciphertexts, binding them
to a (target contract, submitter) pair. -/
structure InputProof where
  target : Nat
  submitter : Nat
deriving DecidableEq, Repr

/-- `FHE.fromExternal(raw, proof)`: admit an externally supplied `euint8`
ciphertext (modelled by its underlying byte value) if and only if the proof
is bound to this contract and to the calling principal; otherwise the whole
call reverts with `InvalidProof` and no handle is created. -/
def fheFromExternal (s : ChainState) (raw : Nat) (proof : InputProof)
    (caller : Nat) : Except TrustErr (H × ChainState) :=
  if proof.target = CONTRACT_ID ∧ proof.submitter = caller then
    Except.ok (externalHandle s (raw % M8))
  else
    Except.error TrustErr.InvalidProof

/-- Write `balances[a] = h`, logging a `store` event. -/
def storeBalance (s : ChainState) (a : Nat) (h : H) : ChainState :=
  { s with balances := fun x => if x = a then h else s.balances x,
           trace := s.trace ++ [Event.store] }

/-- Write `tickets[a] = t`, logging a `store` event. -/
def storeTicket (s : ChainState) (a : Nat) (t : Ticket) : ChainState :=
  { s with tickets := fun x => if x = a then t else s.tickets x,
           trace := s.trace ++ [Event.store] }

/-- Write `lastResults[a] = d`, logging a `store` event. -/
def storeLastResult (s : ChainState) (a : Nat) (d : DrawResult) : ChainState :=
  { s with lastResults := fun x => if x = a then d else s.lastResults x,
           trace := s.trace ++ [Event.store] }

/-- `purchasePoints()` (source lines 37-53): requires a positive `msg.value`,
computes `pointsValue = msg.value * POINTS_PER_ETH / 1 ether`, requires it
positive, credits the sent ETH to the contract, lifts `uint32(pointsValue)`
into the encrypted domain, adds it to the caller's balance (implicit zero
before the first purchase), stores the new balance, grants the contract and
the caller on it, and returns the new balance handle. -/
def purchasePoints (s : ChainState) (caller : Nat) (msgValue : Nat) :
    Except TrustErr (ChainState × H) :=
  if msgValue = 0 then Except.error TrustErr.ZeroPayment
  else
    let pointsValue := msgValue * POINTS_PER_ETH / ETHER
    if pointsValue = 0 then Except.error TrustErr.BelowMinimum
    else
      let s0 := { s with contractEth := s.contractEth + msgValue }
      let (addedPoints, s1) := fheAsEuint32 s0 pointsValue
      let (updatedBalance, s2) := fheAdd32 s1 (s.balances caller) addedPoints
      let s3 := storeBalance s2 caller updatedBalance
      let s4 := fheAllowThis s3 updatedBalance
      let s5 := fheAllow s4 updatedBalance caller
      Except.ok (s5, updatedBalance)

/-- `purchaseTicket(firstNumber, secondNumber, inputProof)` (source lines
59-86): lifts `TICKET_COST`, unconditionally debits it from the caller's
balance by modular subtraction (no affordability check), admits the two
external ciphertexts against the proof, stores the new balance and the new
ticket (overwriting any prior ticket, marking it active), then grants the
contract and the caller on the new balance and both pick handles. -/
def purchaseTicket (s : ChainState) (caller : Nat)
    (firstNumber secondNumber : Nat) (inputProof : InputProof) :
    Except TrustErr ChainState :=
  let (cost, s1) := fheAsEuint32 s TICKET_COST
  let (updatedBalance, s2) := fheSub32 s1 (s.balances caller) cost
  match fheFromExternal s2 firstNumber inputProof caller with
  | Except.error e => Except.error e
  | Except.ok (firstEncrypted, s3) =>
    match fheFromExternal s3 secondNumber inputProof caller with
    | Except.error e => Except.error e
    | Except.ok (secondEncrypted, s4) =>
      let s5 := storeBalance s4 caller updatedBalance
      let s6 := storeTicket s5 caller ⟨firstEncrypted, secondEncrypted, true⟩
      let s7 := fheAllowThis s6 updatedBalance
      let s8 := fheAllow s7 updatedBalance caller
      let s9 := fheAllowThis s8 firstEncrypted
      let s10 := fheAllowThis s9 secondEncrypted
      let s11 := fheAllow s10 firstEncrypted caller
      let s12 := fheAllow s11 secondEncrypted caller
      Except.ok s12

/-- `playRound()` (source lines 92-132): requires an active ticket, draws two
independent random bytes and maps each into `[1, 9]` via `rem` plus a literal
offset of 1, computes the per-number hit indicators via `eq` and `select`,
sums them into `totalHits`, selects the reward by nested equality against 1
and 2, credits the reward to the balance, clears the active flag, stores the
draw result, and grants the contract and the caller on the new balance and
all three result handles, returning those three handles. -/
def playRound (s : ChainState) (caller : Nat) :
    Except TrustErr (ChainState × H × H × H) :=
  let ticket := s.tickets caller
  if ticket.exists_ = false then Except.error TrustErr.NoActiveTicket
  else
    let (baseOne, s1) := fheAsEuint8 s 1
    let (zero, s2) := fheAsEuint8 s1 0
    let (randomFirst, s3) := fheRandEuint8 s2
    let (randomSecond, s4) := fheRandEuint8 s3
    let (remFirst, s5) := fheRem8 s4 randomFirst 9
    let (winningFirst, s6) := fheAdd8 s5 remFirst baseOne
    let (remSecond, s7) := fheRem8 s6 randomSecond 9
    let (winningSecond, s8) := fheAdd8 s7 remSecond baseOne
    let (eqFirst, s9) := fheEq s8 ticket.firstNumber winningFirst
    let (firstHit, s10) := fheSelect s9 eqFirst baseOne zero
    let (eqSecond, s11) := fheEq s10 ticket.secondNumber winningSecond
    let (secondHit, s12) := fheSelect s11 eqSecond baseOne zero
    let (totalHits, s13) := fheAdd8 s12 firstHit secondHit
    let (rewardZero, s14) := fheAsEuint32 s13 0
    let (eqOne, s15) := fheEq s14 totalHits baseOne
    let (oneReward, s16) := fheAsEuint32 s15 ONE_MATCH_REWARD
    let (rewardA, s17) := fheSelect s16 eqOne oneReward rewardZero
    let (litTwo, s18) := fheAsEuint8 s17 2
    let (eqTwo, s19) := fheEq s18 totalHits litTwo
    let (twoReward, s20) := fheAsEuint32 s19 TWO_MATCH_REWARD
    let (reward, s21) := fheSelect s20 eqTwo twoReward rewardA
    let (updatedBalance, s22) := fheAdd32 s21 (s.balances caller) reward
    let s23 := storeBalance s22 caller updatedBalance
    let s24 := storeTicket s23 caller { ticket with exists_ := false }
    let s25 := storeLastResult s24 caller ⟨winningFirst, winningSecond, reward⟩
    let s26 := fheAllowThis s25 updatedBalance
    let s27 := fheAllow s26 updatedBalance caller
    let s28 := fheAllowThis s27 winningFirst
    let s29 := fheAllowThis s28 winningSecond
    let s30 := fheAllowThis s29 reward
    let s31 := fheAllow s30 winningFirst caller
    let s32 := fheAllow s31 winningSecond caller
    let s33 := fheAllow s32 reward caller
    Except.ok (s33, winningFirst, winningSecond, reward)

/-- `getEncryptedBalance(player)` (source lines 136-138): a pure read. -/
def getEncryptedBalance (s : ChainState) (player : Nat) : H :=
  s.balances player

/-- `getTicket(player)` (source lines 145-148): a pure read. -/
def getTicket (s : ChainState) (player : Nat) : H × H × Bool :=
  (( s.tickets player).firstNumber, (s.tickets player).secondNumber,
   (s.tickets player).exists_)

/-- `getLastDraw(player)` (source lines 155-162): a pure read. -/
def getLastDraw (s : ChainState) (player : Nat) : H × H × H :=
  ((s.lastResults player).firstWinning, (s.lastResults player).secondWinning,
   (s.lastResults player).reward)

/-- Transaction wrapper for `purchasePoints`: a revert rolls the state back
(the sent ETH is refunded), realising the all-or-nothing semantics. -/
def execPurchasePoints (s : ChainState) (caller msgValue : Nat) :
    ChainState × Except TrustErr H :=
  match purchasePoints s caller msgValue with
  | Except.ok (s', h) => (s', Except.ok h)
  | Except.error e => (s, Except.error e)

/-- Transaction wrapper for `purchaseTicket`: a revert rolls the state back. -/
def execPurchaseTicket (s : ChainState) (caller : Nat)
    (firstNumber secondNumber : Nat) (inputProof : InputProof) :
    ChainState × Except TrustErr Unit :=
  match purchaseTicket s caller firstNumber secondNumber inputProof with
  | Except.ok s' => (s', Except.ok ())
  | Except.error e => (s, Except.error e)

/-- Transaction wrapper for `playRound`: a revert rolls the state back. -/
def execPlayRound (s : ChainState) (caller : Nat) :
    ChainState × Except TrustErr (H × H × H) :=
  match playRound s caller with
  | Except.ok (s', w1, w2, r) => (s', Except.ok (w1, w2, r))
  | Except.error e => (s, Except.error e)

/-- The state of a freshly deployed contract over a given randomness stream:
no handles created yet beyond the zero sentinel, no grants, every mapping at
its Solidity default. -/
def initState (rng : Nat → Nat) : ChainState :=
  { next := 1, grants := [],
    balances := fun _ => zeroHandle,
    tickets := fun _ => ⟨zeroHandle, zeroHandle, false⟩,
    lastResults := fun _ => ⟨zeroHandle, zeroHandle, zeroHandle⟩,
    rng := rng, rngIndex := 0, contractEth := 0, trace := [] }

/-- Both grants that durable handles must carry: a self-grant to the contract
and a grant to the owning principal. -/
def grantedTo (s : ChainState) (h : H) (a : Nat) : Prop :=
  (h.id, Principal.contractP) ∈ s.grants ∧ (h.id, Principal.player a) ∈ s.grants

/-- Whether an `Except` result is a success. -/
def isOk {α : Type} : Except TrustErr α → Bool
  | Except.ok _ => true
  | Except.error _ => false

/-- The stage of an event in the ordering claimed by the specification for
a state-mutating operation: admission first, then homomorphic computation,
then grants, then stores. -/
def claimStage : Event → Nat
  | Event.external _ => 0
  | Event.compute _ => 1
  | Event.grant _ _ => 2
  | Event.store => 3

/-- The stage of an event in the order the code actually follows in
`purchaseTicket`: computation first, then admission, then stores, then
grants. -/
def codeStage : Event → Nat
  | Event.compute _ => 0
  | Event.external _ => 1
  | Event.store => 2
  | Event.grant _ _ => 3

/-- A trace is ordered by a stage assignment when stages never decrease
along it. -/
def StageOrdered (f : Event → Nat) (tr : List Event) : Prop :=
  List.Pairwise (fun a b => f a ≤ f b) tr

instance (f : Event → Nat) (tr : List Event) : Decidable (StageOrdered f tr) :=
  inferInstanceAs (Decidable (List.Pairwise (fun a b => f a ≤ f b) tr))

/-- A deterministic randomness stream used for concrete runs. -/
def demoRng : Nat → Nat := fun _ => 0

/-- An input proof correctly bound to (this contract, principal 1). -/
def demoProof : InputProof := ⟨0, 1⟩

/-- Principal 1 buys 10000 points with 1 ether. -/
def demoS1 : ChainState := (execPurchasePoints (initState demoRng) 1 ETHER).1

/-- Principal 1 then buys a ticket with picks (1, 2): balance 9990, ticket
active. -/
def demoS2 : ChainState := (execPurchaseTicket demoS1 1 1 2 demoProof).1

/-- Principal 1 buys only 9 points and then a ticket, wrapping the balance
to 2^32 - 1. -/
def wrapS2 : ChainState :=
  (execPurchaseTicket
    (execPurchasePoints (initState demoRng) 1 (9 * 10 ^ 14)).1 1 1 2 demoProof).1

/-- The trace of a ticket purchase from a fresh deployment. -/
def orderTrace : List Event :=
  (execPurchaseTicket (initState demoRng) 1 3 7 demoProof).1.trace

end TrustRoll

namespace TrustRoll

/-- C1: for every state-mutating operation that returns successfully, every
ciphertext handle the operation writes into the calling principal's durable
state — the balance handle for `purchasePoints`; the balance handle and both
ticket pick handles for `purchaseTicket`; the balance handle and the three
draw-result handles for `playRound` — has received both a self-grant to the
contract and a grant to the calling principal before the operation
returns. -/
theorem all_handles_granted (s : ChainState) (c v a b : Nat) (p : InputProof) :
    (isOk (execPurchasePoints s c v).2 = true →
        grantedTo (execPurchasePoints s c v).1
          ((execPurchasePoints s c v).1.balances c) c)
    ∧ (isOk (execPurchaseTicket s c a b p).2 = true →
        grantedTo (execPurchaseTicket s c a b p).1
          ((execPurchaseTicket s c a b p).1.balances c) c
        ∧ grantedTo (execPurchaseTicket s c a b p).1
            ((execPurchaseTicket s c a b p).1.tickets c).firstNumber c
        ∧ grantedTo (execPurchaseTicket s c a b p).1
            ((execPurchaseTicket s c a b p).1.tickets c).secondNumber c)
    ∧ (isOk (execPlayRound s c).2 = true →
        grantedTo (execPlayRound s c).1 ((execPlayRound s c).1.balances c) c
        ∧ grantedTo (execPlayRound s c).1
            ((execPlayRound s c).1.lastResults c).firstWinning c
        ∧ grantedTo (execPlayRound s c).1
            ((execPlayRound s c).1.lastResults c).secondWinning c
        ∧ grantedTo (execPlayRound s c).1
            ((execPlayRound s c).1.lastResults c).reward c) := by
  refine ⟨?_, ?_, ?_⟩
  · by_cases hv : v = 0
    · simp [execPurchasePoints, purchasePoints, hv, isOk]
    · by_cases hpv : v * POINTS_PER_ETH / ETHER = 0
      · simp [execPurchasePoints, purchasePoints, hv, hpv, isOk]
      · intro _
        simp [execPurchasePoints, purchasePoints, hv, hpv, fheAsEuint32,
          fheAdd32, createHandle, storeBalance, fheAllowThis, fheAllow,
          grantedTo]
  · by_cases hp : p.target = CONTRACT_ID ∧ p.submitter = c
    · intro _
      simp [execPurchaseTicket, purchaseTicket, fheFromExternal, hp,
        externalHandle, fheAsEuint32, fheSub32, createHandle, storeBalance,
        storeTicket, fheAllowThis, fheAllow, grantedTo]
    · simp [execPurchaseTicket, purchaseTicket, fheFromExternal, hp,
        fheAsEuint32, fheSub32, createHandle, isOk]
  · by_cases ht : (s.tickets c).exists_ = false
    · simp [execPlayRound, playRound, ht, isOk]
    · intro _
      simp [execPlayRound, playRound, ht, fheAsEuint8, fheRandEuint8, fheRem8,
        fheAdd8, fheEq, fheSelect, fheAsEuint32, fheAdd32, createHandle,
        storeBalance, storeTicket, storeLastResult, fheAllowThis, fheAllow,
        grantedTo]

/-- Witness for C1: the grant facts hold on a concrete successful run of each
of the three operations. -/
theorem all_handles_granted_witness :
    grantedTo demoS1 (demoS1.balances 1) 1
    ∧ (grantedTo demoS2 (demoS2.balances 1) 1
        ∧ grantedTo demoS2 (demoS2.tickets 1).firstNumber 1
        ∧ grantedTo demoS2 (demoS2.tickets 1).secondNumber 1)
    ∧ (grantedTo (execPlayRound demoS2 1).1 ((execPlayRound demoS2 1).1.balances 1) 1
        ∧ grantedTo (execPlayRound demoS2 1).1
            ((execPlayRound demoS2 1).1.lastResults 1).firstWinning 1
        ∧ grantedTo (execPlayRound demoS2 1).1
            ((execPlayRound demoS2 1).1.lastResults 1).secondWinning 1
        ∧ grantedTo (execPlayRound demoS2 1).1
            ((execPlayRound demoS2 1).1.lastResults 1).reward 1) :=
  ⟨(all_handles_granted (initState demoRng) 1 ETHER 1 2 demoProof).1 (by decide),
   (all_handles_granted demoS1 1 ETHER 1 2 demoProof).2.1 (by decide),
   (all_handles_granted demoS2 1 ETHER 1 2 demoProof).2.2 (by decide)⟩

/-- C2 counterexample: for v = 2^32 * 10^14 wei, floor(v * 10000 / 1 ether)
equals 2^32, which is positive, so `purchasePoints` succeeds — but the
`uint32` cast truncates the minted points to 0, so the balance increases by
0 rather than by the claimed floor(v * 10000 / 1 ether). -/
theorem purchasePoints_exact_increase_cex :
    isOk (execPurchasePoints (initState demoRng) 1 (M32 * 10 ^ 14)).2 = true
    ∧ (M32 * 10 ^ 14) * POINTS_PER_ETH / ETHER = M32
    ∧ ((initState demoRng).balances 1).val = 0
    ∧ ((execPurchasePoints (initState demoRng) 1 (M32 * 10 ^ 14)).1.balances 1).val = 0
    ∧ ¬ (((execPurchasePoints (initState demoRng) 1 (M32 * 10 ^ 14)).1.balances 1).val
          = ((initState demoRng).balances 1).val + (M32 * 10 ^ 14) * POINTS_PER_ETH / ETHER) := by
  refine ⟨by decide, by decide, by decide, by decide, by decide⟩

/-- C2 (amended): `purchasePoints(v)` fails with ZeroPayment when v = 0 and
with BelowMinimum when floor(v * 10000 / 1 ether) = 0, leaving the state
unchanged in both cases; when floor(v * 10000 / 1 ether) > 0 it succeeds,
returns the stored balance handle, and the new balance is the old balance
plus floor(v * 10000 / 1 ether) reduced mod 2^32, the sum itself taken mod
2^32 — equal to an exact increase only when no truncation or wrap occurs. -/
theorem purchasePoints_mod_spec (s : ChainState) (c v : Nat) :
    (v = 0 → execPurchasePoints s c v = (s, Except.error TrustErr.ZeroPayment))
    ∧ (v ≠ 0 → v * POINTS_PER_ETH / ETHER = 0 →
        execPurchasePoints s c v = (s, Except.error TrustErr.BelowMinimum))
    ∧ (0 < v * POINTS_PER_ETH / ETHER →
        ((execPurchasePoints s c v).1.balances c).val
            = ((s.balances c).val + (v * POINTS_PER_ETH / ETHER) % M32) % M32
          ∧ (execPurchasePoints s c v).2
              = Except.ok ((execPurchasePoints s c v).1.balances c)) := by
  refine ⟨?_, ?_, ?_⟩
  · intro h
    simp [execPurchasePoints, purchasePoints, h]
  · intro h1 h2
    simp [execPurchasePoints, purchasePoints, h1, h2]
  · intro h
    have hv : v ≠ 0 := by
      intro h0
      subst h0
      simp at h
    have hpv : ¬ (v * POINTS_PER_ETH / ETHER = 0) := by omega
    simp [execPurchasePoints, purchasePoints, hv, hpv, fheAsEuint32, fheAdd32,
      createHandle, storeBalance, fheAllowThis, fheAllow]

/-- Witness for C2: both failure modes and a successful 1-ether purchase at a
fresh deployment. -/
theorem purchasePoints_mod_spec_witness :
    execPurchasePoints (initState demoRng) 1 0
        = (initState demoRng, Except.error TrustErr.ZeroPayment)
    ∧ execPurchasePoints (initState demoRng) 1 1
        = (initState demoRng, Except.error TrustErr.BelowMinimum)
    ∧ (((execPurchasePoints (initState demoRng) 1 ETHER).1.balances 1).val
          = (((initState demoRng).balances 1).val
              + (ETHER * POINTS_PER_ETH / ETHER) % M32) % M32
        ∧ (execPurchasePoints (initState demoRng) 1 ETHER).2
            = Except.ok ((execPurchasePoints (initState demoRng) 1 ETHER).1.balances 1)) :=
  ⟨(purchasePoints_mod_spec (initState demoRng) 1 0).1 rfl,
   (purchasePoints_mod_spec (initState demoRng) 1 1).2.1 (by decide) (by decide),
   (purchasePoints_mod_spec (initState demoRng) 1 ETHER).2.2 (by decide)⟩

/-- C3: `purchaseTicket` (with a validly bound proof) always succeeds and
unconditionally debits TICKET_COST = 10 from the balance by modular 32-bit
subtraction; there is no affordability check, and for a balance b below 10
the new balance is (b - 10) mod 2^32 — silent wraparound, not an error. -/
theorem purchaseTicket_wrap (s : ChainState) (c a b : Nat) (p : InputProof)
    (hp : p.target = CONTRACT_ID) (hs : p.submitter = c) :
    (execPurchaseTicket s c a b p).2 = Except.ok ()
    ∧ ((execPurchaseTicket s c a b p).1.balances c).val
        = ((s.balances c).val % M32 + M32 - TICKET_COST % M32) % M32
    ∧ ((s.balances c).val < TICKET_COST →
        ((((execPurchaseTicket s c a b p).1.balances c).val : Int)
          = (((s.balances c).val : Int) - (TICKET_COST : Int)) % ((M32 : Nat) : Int))) := by
  have key : ((execPurchaseTicket s c a b p).1.balances c).val
      = ((s.balances c).val % M32 + M32 - TICKET_COST % M32) % M32 := by
    simp [execPurchaseTicket, purchaseTicket, fheFromExternal, hp, hs,
      CONTRACT_ID, externalHandle, fheAsEuint32, fheSub32, createHandle,
      storeBalance, storeTicket, fheAllowThis, fheAllow, TICKET_COST]
  refine ⟨?_, key, ?_⟩
  · simp [execPurchaseTicket, purchaseTicket, fheFromExternal, hp, hs,
      CONTRACT_ID, externalHandle, fheAsEuint32, fheSub32, createHandle,
      storeBalance, storeTicket, fheAllowThis, fheAllow]
  · intro hlt
    rw [key]
    have hM : M32 = 4294967296 := rfl
    have hT : TICKET_COST = 10 := rfl
    rw [hM, hT] at *
    omega

/-- Witness for C3: a ticket purchase from a zero balance wraps the balance
to 2^32 - 10. -/
theorem purchaseTicket_wrap_witness :
    (execPurchaseTicket (initState demoRng) 1 3 7 demoProof).2 = Except.ok ()
    ∧ ((execPurchaseTicket (initState demoRng) 1 3 7 demoProof).1.balances 1).val
        = (((initState demoRng).balances 1).val % M32 + M32 - TICKET_COST % M32) % M32
    ∧ ((((execPurchaseTicket (initState demoRng) 1 3 7 demoProof).1.balances 1).val : Int)
        = ((((initState demoRng).balances 1).val : Int) - (TICKET_COST : Int))
            % ((M32 : Nat) : Int)) :=
  ⟨(purchaseTicket_wrap (initState demoRng) 1 3 7 demoProof rfl rfl).1,
   (purchaseTicket_wrap (initState demoRng) 1 3 7 demoProof rfl rfl).2.1,
   (purchaseTicket_wrap (initState demoRng) 1 3 7 demoProof rfl rfl).2.2 (by decide)⟩

end TrustRoll

namespace TrustRoll

/-- C4 counterexample: from a fresh deployment, buy 9 points, buy a ticket
with picks (1, 2) — wrapping the balance to 2^32 - 1 — then play a round
whose winning numbers are (1, 1): the reward is 100 (exactly one match), but
the new balance is (2^32 - 1 + 100) mod 2^32 = 99, not the pre-round balance
plus the reward.  The "plus that reward exactly" part of the claim fails on
32-bit wraparound. -/
theorem playRound_exact_sum_cex :
    (wrapS2.tickets 1).exists_ = true
    ∧ (wrapS2.balances 1).val = 4294967295
    ∧ isOk (execPlayRound wrapS2 1).2 = true
    ∧ ((execPlayRound wrapS2 1).1.lastResults 1).reward.val = 100
    ∧ ((execPlayRound wrapS2 1).1.balances 1).val = 99
    ∧ ¬ (((execPlayRound wrapS2 1).1.balances 1).val
          = (wrapS2.balances 1).val + ((execPlayRound wrapS2 1).1.lastResults 1).reward.val) := by
  refine ⟨by decide, by decide, by decide, by decide, by decide, by decide⟩

/-- C4 (amended): after a successful `playRound`, the reward is 0 when
neither pick matches its winning number, ONE_MATCH_REWARD = 100 when exactly
one matches, and TWO_MATCH_REWARD = 1000 when both match (so it is always
one of 0, 100, 1000); the new balance equals the pre-round balance plus that
reward mod 2^32 — exact whenever the sum stays below 2^32 — and the ticket
becomes inactive. -/
theorem playRound_reward_spec (s : ChainState) (c : Nat)
    (hact : (s.tickets c).exists_ = true) :
    isOk (execPlayRound s c).2 = true
    ∧ ((execPlayRound s c).1.lastResults c).reward.val
        = (if (s.tickets c).firstNumber.val = s.rng s.rngIndex % M8 % 9 + 1
              ∧ (s.tickets c).secondNumber.val = s.rng (s.rngIndex + 1) % M8 % 9 + 1
           then TWO_MATCH_REWARD
           else if (s.tickets c).firstNumber.val = s.rng s.rngIndex % M8 % 9 + 1
              ∨ (s.tickets c).secondNumber.val = s.rng (s.rngIndex + 1) % M8 % 9 + 1
           then ONE_MATCH_REWARD
           else 0)
    ∧ (((execPlayRound s c).1.lastResults c).reward.val = 0
        ∨ ((execPlayRound s c).1.lastResults c).reward.val = ONE_MATCH_REWARD
        ∨ ((execPlayRound s c).1.lastResults c).reward.val = TWO_MATCH_REWARD)
    ∧ ((execPlayRound s c).1.balances c).val
        = ((s.balances c).val + ((execPlayRound s c).1.lastResults c).reward.val) % M32
    ∧ ((execPlayRound s c).1.tickets c).exists_ = false := by
  have e1 : ∀ x : Nat, (x % 9 + 1) % 256 = x % 9 + 1 := by
    intro x
    have : x % 9 < 9 := Nat.mod_lt x (by norm_num)
    omega
  refine ⟨?_, ?_, ?_, ?_, ?_⟩
  · simp [execPlayRound, playRound, hact, isOk]
  · by_cases h1 : (s.tickets c).firstNumber.val = s.rng s.rngIndex % 256 % 9 + 1 <;>
      by_cases h2 : (s.tickets c).secondNumber.val = s.rng (s.rngIndex + 1) % 256 % 9 + 1 <;>
      simp [execPlayRound, playRound, hact, fheAsEuint8, fheRandEuint8, fheRem8,
        fheAdd8, fheEq, fheSelect, fheAsEuint32, fheAdd32, createHandle,
        storeBalance, storeTicket, storeLastResult, fheAllowThis, fheAllow, e1,
        h1, h2, M8, M32, ONE_MATCH_REWARD, TWO_MATCH_REWARD]
  · by_cases h1 : (s.tickets c).firstNumber.val = s.rng s.rngIndex % 256 % 9 + 1 <;>
      by_cases h2 : (s.tickets c).secondNumber.val = s.rng (s.rngIndex + 1) % 256 % 9 + 1 <;>
      simp [execPlayRound, playRound, hact, fheAsEuint8, fheRandEuint8, fheRem8,
        fheAdd8, fheEq, fheSelect, fheAsEuint32, fheAdd32, createHandle,
        storeBalance, storeTicket, storeLastResult, fheAllowThis, fheAllow, e1,
        h1, h2, M8, M32, ONE_MATCH_REWARD, TWO_MATCH_REWARD]
  · by_cases h1 : (s.tickets c).firstNumber.val = s.rng s.rngIndex % 256 % 9 + 1 <;>
      by_cases h2 : (s.tickets c).secondNumber.val = s.rng (s.rngIndex + 1) % 256 % 9 + 1 <;>
      simp [execPlayRound, playRound, hact, fheAsEuint8, fheRandEuint8, fheRem8,
        fheAdd8, fheEq, fheSelect, fheAsEuint32, fheAdd32, createHandle,
        storeBalance, storeTicket, storeLastResult, fheAllowThis, fheAllow, e1,
        h1, h2, M8, M32, ONE_MATCH_REWARD, TWO_MATCH_REWARD]
  · simp [execPlayRound, playRound, hact, fheAsEuint8, fheRandEuint8, fheRem8,
      fheAdd8, fheEq, fheSelect, fheAsEuint32, fheAdd32, createHandle,
      storeBalance, storeTicket, storeLastResult, fheAllowThis, fheAllow]

/-- Witness for C4: the amended reward/balance/ticket facts on the concrete
run from demoS2. -/
theorem playRound_reward_spec_witness :
    isOk (execPlayRound demoS2 1).2 = true
    ∧ ((execPlayRound demoS2 1).1.lastResults 1).reward.val
        = (if (demoS2.tickets 1).firstNumber.val = demoS2.rng demoS2.rngIndex % M8 % 9 + 1
              ∧ (demoS2.tickets 1).secondNumber.val = demoS2.rng (demoS2.rngIndex + 1) % M8 % 9 + 1
           then TWO_MATCH_REWARD
           else if (demoS2.tickets 1).firstNumber.val = demoS2.rng demoS2.rngIndex % M8 % 9 + 1
              ∨ (demoS2.tickets 1).secondNumber.val = demoS2.rng (demoS2.rngIndex + 1) % M8 % 9 + 1
           then ONE_MATCH_REWARD
           else 0)
    ∧ (((execPlayRound demoS2 1).1.lastResults 1).reward.val = 0
        ∨ ((execPlayRound demoS2 1).1.lastResults 1).reward.val = ONE_MATCH_REWARD
        ∨ ((execPlayRound demoS2 1).1.lastResults 1).reward.val = TWO_MATCH_REWARD)
    ∧ ((execPlayRound demoS2 1).1.balances 1).val
        = ((demoS2.balances 1).val + ((execPlayRound demoS2 1).1.lastResults 1).reward.val) % M32
    ∧ ((execPlayRound demoS2 1).1.tickets 1).exists_ = false :=
  playRound_reward_spec demoS2 1 (by decide)

/-- C5: `playRound` by a caller whose ticket is not active fails with
NoActiveTicket and leaves the entire state — balance, ticket, last-draw
state, grants, randomness cursor, and trace — unchanged: the precondition
check precedes any randomness draw, arithmetic, store, or grant. -/
theorem playRound_no_ticket (s : ChainState) (c : Nat)
    (h : (s.tickets c).exists_ = false) :
    execPlayRound s c = (s, Except.error TrustErr.NoActiveTicket) := by
  simp [execPlayRound, playRound, h]

/-- Witness for C5: playing a round at a fresh deployment, where no ticket
exists, reverts without touching the state. -/
theorem playRound_no_ticket_witness :
    execPlayRound (initState demoRng) 1
        = (initState demoRng, Except.error TrustErr.NoActiveTicket) :=
  playRound_no_ticket (initState demoRng) 1 rfl

/-- C6: in every successful `playRound`, the first winning number is
(first fresh random byte mod 9) + 1 and the second is (second fresh random
byte mod 9) + 1, drawn at two distinct positions of the randomness stream by
two separate invocations (the cursor advances by exactly 2), each a function
of its own draw only; both winning numbers lie in [1, 9]. -/
theorem winning_numbers_independent (s : ChainState) (c : Nat)
    (hact : (s.tickets c).exists_ = true) :
    isOk (execPlayRound s c).2 = true
    ∧ ((execPlayRound s c).1.lastResults c).firstWinning.val
        = s.rng s.rngIndex % M8 % 9 + 1
    ∧ ((execPlayRound s c).1.lastResults c).secondWinning.val
        = s.rng (s.rngIndex + 1) % M8 % 9 + 1
    ∧ (execPlayRound s c).1.rngIndex = s.rngIndex + 2
    ∧ 1 ≤ s.rng s.rngIndex % M8 % 9 + 1
    ∧ s.rng s.rngIndex % M8 % 9 + 1 ≤ 9
    ∧ 1 ≤ s.rng (s.rngIndex + 1) % M8 % 9 + 1
    ∧ s.rng (s.rngIndex + 1) % M8 % 9 + 1 ≤ 9 := by
  have e1 : ∀ x : Nat, (x % 9 + 1) % M8 = x % 9 + 1 := by
    intro x
    have : x % 9 < 9 := Nat.mod_lt x (by norm_num)
    have hM : M8 = 256 := rfl
    rw [hM]
    omega
  refine ⟨?_, ?_, ?_, ?_, ?_, ?_, ?_, ?_⟩
  · simp [execPlayRound, playRound, hact, isOk]
  · simp [execPlayRound, playRound, hact, fheAsEuint8, fheRandEuint8, fheRem8,
      fheAdd8, fheEq, fheSelect, fheAsEuint32, fheAdd32, createHandle,
      storeBalance, storeTicket, storeLastResult, fheAllowThis, fheAllow, e1]
  · simp [execPlayRound, playRound, hact, fheAsEuint8, fheRandEuint8, fheRem8,
      fheAdd8, fheEq, fheSelect, fheAsEuint32, fheAdd32, createHandle,
      storeBalance, storeTicket, storeLastResult, fheAllowThis, fheAllow, e1]
  · simp [execPlayRound, playRound, hact, fheAsEuint8, fheRandEuint8, fheRem8,
      fheAdd8, fheEq, fheSelect, fheAsEuint32, fheAdd32, createHandle,
      storeBalance, storeTicket, storeLastResult, fheAllowThis, fheAllow]
  · omega
  · have : s.rng s.rngIndex % M8 % 9 < 9 := Nat.mod_lt _ (by norm_num)
    omega
  · omega
  · have : s.rng (s.rngIndex + 1) % M8 % 9 < 9 := Nat.mod_lt _ (by norm_num)
    omega

/-- Witness for C6: the winning-number facts on the concrete run from
demoS2. -/
theorem winning_numbers_independent_witness :
    isOk (execPlayRound demoS2 1).2 = true
    ∧ ((execPlayRound demoS2 1).1.lastResults 1).firstWinning.val
        = demoS2.rng demoS2.rngIndex % M8 % 9 + 1
    ∧ ((execPlayRound demoS2 1).1.lastResults 1).secondWinning.val
        = demoS2.rng (demoS2.rngIndex + 1) % M8 % 9 + 1
    ∧ (execPlayRound demoS2 1).1.rngIndex = demoS2.rngIndex + 2
    ∧ 1 ≤ demoS2.rng demoS2.rngIndex % M8 % 9 + 1
    ∧ demoS2.rng demoS2.rngIndex % M8 % 9 + 1 ≤ 9
    ∧ 1 ≤ demoS2.rng (demoS2.rngIndex + 1) % M8 % 9 + 1
    ∧ demoS2.rng (demoS2.rngIndex + 1) % M8 % 9 + 1 ≤ 9 :=
  winning_numbers_independent demoS2 1 (by decide)

end TrustRoll

namespace TrustRoll

/-- C7 counterexample: the concrete trace of a ticket purchase from a fresh
deployment is compute (cost literal), compute (balance debit), admission,
admission, store, store, then the six grants — so the claimed strict step
order "admission, then computation, then grants, then stores" is violated:
the balance debit is computed before the external ciphertexts are admitted,
and the stores precede the grants. -/
theorem purchaseTicket_claimed_order_cex :
    orderTrace = [Event.compute 1, Event.compute 2, Event.external 3,
      Event.external 4, Event.store, Event.store,
      Event.grant 2 Principal.contractP, Event.grant 2 (Principal.player 1),
      Event.grant 3 Principal.contractP, Event.grant 4 Principal.contractP,
      Event.grant 3 (Principal.player 1), Event.grant 4 (Principal.player 1)]
    ∧ ¬ StageOrdered claimStage orderTrace := by
  refine ⟨by decide, by decide⟩

/-- C7 (amended): in `purchaseTicket` the two externally supplied ciphertexts
are admitted through proof validation scoped to (this contract, the calling
principal) — an improperly bound proof reverts the whole operation with
InvalidProof — and the steps are strictly ordered within the operation as:
compute (including the balance debit), then admit, then store, then grant;
all grants are applied before the operation returns. -/
theorem purchaseTicket_step_order (s : ChainState) (c a b : Nat) (p : InputProof)
    (htr : s.trace = []) (hp : p.target = CONTRACT_ID) (hs : p.submitter = c) :
    (execPurchaseTicket s c a b p).2 = Except.ok ()
    ∧ StageOrdered codeStage (execPurchaseTicket s c a b p).1.trace
    ∧ (∀ q : InputProof, ¬(q.target = CONTRACT_ID ∧ q.submitter = c) →
        execPurchaseTicket s c a b q = (s, Except.error TrustErr.InvalidProof)) := by
  refine ⟨?_, ?_, ?_⟩
  · simp [execPurchaseTicket, purchaseTicket, fheFromExternal, hp, hs,
      CONTRACT_ID, externalHandle, fheAsEuint32, fheSub32, createHandle,
      storeBalance, storeTicket, fheAllowThis, fheAllow]
  · simp [execPurchaseTicket, purchaseTicket, fheFromExternal, hp, hs,
      CONTRACT_ID, externalHandle, fheAsEuint32, fheSub32, createHandle,
      storeBalance, storeTicket, fheAllowThis, fheAllow, htr, StageOrdered,
      List.pairwise_cons, codeStage]
  · intro q hq
    simp [execPurchaseTicket, purchaseTicket, fheFromExternal, hq,
      fheAsEuint32, fheSub32, createHandle]

/-- Witness for C7 (amended): the ordering facts on a concrete ticket
purchase from a fresh deployment. -/
theorem purchaseTicket_step_order_witness :
    (execPurchaseTicket (initState demoRng) 1 3 7 demoProof).2 = Except.ok ()
    ∧ StageOrdered codeStage (execPurchaseTicket (initState demoRng) 1 3 7 demoProof).1.trace
    ∧ (∀ q : InputProof, ¬(q.target = CONTRACT_ID ∧ q.submitter = 1) →
        execPurchaseTicket (initState demoRng) 1 3 7 q
          = (initState demoRng, Except.error TrustErr.InvalidProof)) :=
  purchaseTicket_step_order (initState demoRng) 1 3 7 demoProof rfl rfl rfl

/-- C8: every principal has at most one active ticket — `purchaseTicket`
while a ticket is already active succeeds and silently overwrites the prior
ticket with the two freshly admitted pick handles (no rejection), and
`playRound` sets only the ticket's active flag to false, leaving the stored
pick handles unchanged and still addressable. -/
theorem ticket_overwrite_consume (s : ChainState) (c a b : Nat) (p : InputProof)
    (hp : p.target = CONTRACT_ID) (hs : p.submitter = c)
    (hact : (s.tickets c).exists_ = true) :
    ((execPurchaseTicket s c a b p).2 = Except.ok ()
      ∧ (execPurchaseTicket s c a b p).1.tickets c
          = ⟨⟨s.next + 2, a % M8⟩, ⟨s.next + 3, b % M8⟩, true⟩)
    ∧ (execPlayRound s c).1.tickets c = { s.tickets c with exists_ := false } := by
  refine ⟨⟨?_, ?_⟩, ?_⟩
  · simp [execPurchaseTicket, purchaseTicket, fheFromExternal, hp, hs,
      CONTRACT_ID, externalHandle, fheAsEuint32, fheSub32, createHandle,
      storeBalance, storeTicket, fheAllowThis, fheAllow]
  · simp [execPurchaseTicket, purchaseTicket, fheFromExternal, hp, hs,
      CONTRACT_ID, externalHandle, fheAsEuint32, fheSub32, createHandle,
      storeBalance, storeTicket, fheAllowThis, fheAllow]
  · simp [execPlayRound, playRound, hact, fheAsEuint8, fheRandEuint8, fheRem8,
      fheAdd8, fheEq, fheSelect, fheAsEuint32, fheAdd32, createHandle,
      storeBalance, storeTicket, storeLastResult, fheAllowThis, fheAllow]

/-- Witness for C8: at demoS2 (which has an active ticket), buying another
ticket overwrites it with the new picks, and playing a round merely clears
the active flag. -/
theorem ticket_overwrite_consume_witness :
    ((execPurchaseTicket demoS2 1 4 5 demoProof).2 = Except.ok ()
      ∧ (execPurchaseTicket demoS2 1 4 5 demoProof).1.tickets 1
          = ⟨⟨demoS2.next + 2, 4 % M8⟩, ⟨demoS2.next + 3, 5 % M8⟩, true⟩)
    ∧ (execPlayRound demoS2 1).1.tickets 1
        = { demoS2.tickets 1 with exists_ := false } :=
  ticket_overwrite_consume demoS2 1 4 5 demoProof rfl rfl (by decide)

/-- C9: when floor(v * 10000 / 1 ether) is at least 2^32, `purchasePoints`
does not fail; the `uint32` cast silently truncates the minted points to
that quotient mod 2^32 (a strictly different value) before the modular add,
so the balance increase is the truncated value, not the exact quotient. -/
theorem purchasePoints_truncation (s : ChainState) (c v : Nat)
    (h : M32 ≤ v * POINTS_PER_ETH / ETHER) :
    isOk (execPurchasePoints s c v).2 = true
    ∧ ((execPurchasePoints s c v).1.balances c).val
        = ((s.balances c).val + (v * POINTS_PER_ETH / ETHER) % M32) % M32
    ∧ (v * POINTS_PER_ETH / ETHER) % M32 ≠ v * POINTS_PER_ETH / ETHER := by
  have hM : M32 = 4294967296 := rfl
  have hv : v ≠ 0 := by
    intro h0
    rw [h0] at h
    simp [POINTS_PER_ETH, ETHER] at h
    omega
  have hpv : ¬ (v * POINTS_PER_ETH / ETHER = 0) := by
    intro h0
    rw [h0] at h
    omega
  refine ⟨?_, ?_, ?_⟩
  · simp [execPurchasePoints, purchasePoints, hv, hpv, isOk]
  · simp [execPurchasePoints, purchasePoints, hv, hpv, fheAsEuint32, fheAdd32,
      createHandle, storeBalance, fheAllowThis, fheAllow]
  · have : (v * POINTS_PER_ETH / ETHER) % M32 < M32 :=
      Nat.mod_lt _ (by rw [hM]; norm_num)
    omega

/-- Witness for C9: at v = 2^32 * 10^14 wei the quotient is exactly 2^32,
the purchase succeeds, and the truncated increase differs from it. -/
theorem purchasePoints_truncation_witness :
    isOk (execPurchasePoints (initState demoRng) 1 (M32 * 10 ^ 14)).2 = true
    ∧ ((execPurchasePoints (initState demoRng) 1 (M32 * 10 ^ 14)).1.balances 1).val
        = (((initState demoRng).balances 1).val
            + ((M32 * 10 ^ 14) * POINTS_PER_ETH / ETHER) % M32) % M32
    ∧ ((M32 * 10 ^ 14) * POINTS_PER_ETH / ETHER) % M32
        ≠ (M32 * 10 ^ 14) * POINTS_PER_ETH / ETHER :=
  purchasePoints_truncation (initState demoRng) 1 (M32 * 10 ^ 14) (by decide)

/-- C10: the contract's ETH balance is monotonically non-decreasing across
every operation: `purchasePoints` accepts exactly the sent ETH on success
and keeps none on failure, while `purchaseTicket` and `playRound` leave the
contract's ETH untouched — no entry point ever transfers ETH out, so
deposited ETH is permanently locked in the contract. -/
theorem contractEth_monotone (s : ChainState) (c v a b : Nat) (p : InputProof) :
    s.contractEth ≤ (execPurchasePoints s c v).1.contractEth
    ∧ ((execPurchasePoints s c v).1.contractEth = s.contractEth + v
          ∧ isOk (execPurchasePoints s c v).2 = true
        ∨ (execPurchasePoints s c v).1.contractEth = s.contractEth
          ∧ isOk (execPurchasePoints s c v).2 = false)
    ∧ (execPurchaseTicket s c a b p).1.contractEth = s.contractEth
    ∧ (execPlayRound s c).1.contractEth = s.contractEth := by
  refine ⟨?_, ?_, ?_, ?_⟩
  · by_cases hv : v = 0
    · simp [execPurchasePoints, purchasePoints, hv]
    · by_cases hpv : v * POINTS_PER_ETH / ETHER = 0
      · simp [execPurchasePoints, purchasePoints, hv, hpv]
      · simp [execPurchasePoints, purchasePoints, hv, hpv, fheAsEuint32,
          fheAdd32, createHandle, storeBalance, fheAllowThis, fheAllow]
  · by_cases hv : v = 0
    · right
      simp [execPurchasePoints, purchasePoints, hv, isOk]
    · by_cases hpv : v * POINTS_PER_ETH / ETHER = 0
      · right
        simp [execPurchasePoints, purchasePoints, hv, hpv, isOk]
      · left
        simp [execPurchasePoints, purchasePoints, hv, hpv, fheAsEuint32,
          fheAdd32, createHandle, storeBalance, fheAllowThis, fheAllow, isOk]
  · by_cases hp : p.target = CONTRACT_ID ∧ p.submitter = c
    · simp [execPurchaseTicket, purchaseTicket, fheFromExternal, hp,
        externalHandle, fheAsEuint32, fheSub32, createHandle, storeBalance,
        storeTicket, fheAllowThis, fheAllow]
    · simp [execPurchaseTicket, purchaseTicket, fheFromExternal, hp,
        fheAsEuint32, fheSub32, createHandle]
  · by_cases ht : (s.tickets c).exists_ = false
    · simp [execPlayRound, playRound, ht]
    · simp [execPlayRound, playRound, ht, fheAsEuint8, fheRandEuint8, fheRem8,
        fheAdd8, fheEq, fheSelect, fheAsEuint32, fheAdd32, createHandle,
        storeBalance, storeTicket, storeLastResult, fheAllowThis, fheAllow]

end TrustRoll
